import Mathlib

/-!
Verification of the Winnipeg mortgage calculator core
(`MortgageCalculationSchema`, `calculateCMHCInsurance`,
`getAffordabilityRating`, `calculateMortgage`).

Numbers are modelled as exact rationals (`ℚ`), idealising JavaScript's
double-precision arithmetic; `x / 0 = 0` in `ℚ` stands in for the `NaN`
that JavaScript produces at a genuine division by zero, and each such
place is flagged explicitly by a theorem about the vanishing denominator.
`Math.round x` is round-half-up, i.e. `⌊x + 1/2⌋`.
-/

/-- JavaScript `Math.round`: round half up (towards `+∞`). -/
def jsRound (x : ℚ) : ℤ := ⌊x + 1/2⌋

/-- `Math.round (x * 100) / 100`, the two-decimal rounding used for every
monetary output field. -/
def round2 (x : ℚ) : ℚ := (jsRound (x * 100) : ℚ) / 100

/-- Enumeration of `z.enum(["single-family", "condo", "townhouse", "multi-family"])`. -/
inductive PropertyType where
  | singleFamily
  | condo
  | townhouse
  | multiFamily
deriving DecidableEq, Repr

/-- Enumeration of `z.enum(["gas", "electric", "oil", "geothermal"])`. -/
inductive HeatingType where
  | gas
  | electric
  | oil
  | geothermal
deriving DecidableEq, Repr

/-- Parsing of the `propertyType` enum string, as `z.enum` does. -/
def parsePropertyType (s : String) : Option PropertyType :=
  if s = "single-family" then some .singleFamily
  else if s = "condo" then some .condo
  else if s = "townhouse" then some .townhouse
  else if s = "multi-family" then some .multiFamily
  else none

/-- Parsing of the `heatingType` enum string, as `z.enum` does. -/
def parseHeatingType (s : String) : Option HeatingType :=
  if s = "gas" then some .gas
  else if s = "electric" then some .electric
  else if s = "oil" then some .oil
  else if s = "geothermal" then some .geothermal
  else none

/-- Raw field values handed to `MortgageCalculationSchema.parse`. -/
structure RawRequest where
  propertyValue : ℚ
  downPayment : ℚ
  interestRate : ℚ
  amortizationYears : ℚ
  propertyType : String
  heatingType : String
  isFirstTimeBuyer : Bool
deriving DecidableEq, Repr

/-- The validated `MortgageCalculation` value produced by a successful parse;
`amortizationYears` is a natural number because `z.number().int().min(1)`
guarantees an integer of at least 1. -/
structure MortgageCalculation where
  propertyValue : ℚ
  downPayment : ℚ
  interestRate : ℚ
  amortizationYears : ℕ
  propertyType : PropertyType
  heatingType : HeatingType
  isFirstTimeBuyer : Bool
deriving DecidableEq, Repr

/-- `MortgageCalculationSchema.safeParse`: each field check of the zod schema,
translated clause by clause; `none` models a `ValidationError`.
The schema checks `propertyValue` with `.min(1)`, `downPayment` with
`.min(0)`, `interestRate` with `.min(0.1).max(20)`, `amortizationYears`
with `.int().min(1).max(35)`, and the two enums; it has no check relating
`downPayment` to `propertyValue`. -/
def parseRequest (r : RawRequest) : Option MortgageCalculation :=
  if 1 ≤ r.propertyValue ∧ 0 ≤ r.downPayment ∧
      1/10 ≤ r.interestRate ∧ r.interestRate ≤ 20 ∧
      r.amortizationYears.den = 1 ∧ 1 ≤ r.amortizationYears ∧ r.amortizationYears ≤ 35 then
    match parsePropertyType r.propertyType, parseHeatingType r.heatingType with
    | some pt, some ht =>
        some { propertyValue := r.propertyValue
               downPayment := r.downPayment
               interestRate := r.interestRate
               amortizationYears := r.amortizationYears.num.toNat
               propertyType := pt
               heatingType := ht
               isFirstTimeBuyer := r.isFirstTimeBuyer }
    | _, _ => none
  else none

/-- Static reference data of the `winnipegData` constant. -/
structure WinnipegPropertyData where
  averagePropertyTaxRate : ℚ
  averageInsuranceRate : ℚ
  fixed1Year : ℚ
  fixed5Year : ℚ
  variableRate : ℚ
  utilityGas : ℚ
  utilityElectric : ℚ
  utilityOil : ℚ
  utilityGeothermal : ℚ

/-- The `winnipegData` constant of the source. -/
def winnipegData : WinnipegPropertyData where
  averagePropertyTaxRate := 235/100
  averageInsuranceRate := 3/10
  fixed1Year := 524/100
  fixed5Year := 484/100
  variableRate := 595/100
  utilityGas := 180
  utilityElectric := 120
  utilityOil := 220
  utilityGeothermal := 80

/-- Lookup `winnipegData.utilityEstimates[heatingType]`. -/
def utilityEstimate : HeatingType → ℚ
  | .gas => winnipegData.utilityGas
  | .electric => winnipegData.utilityElectric
  | .oil => winnipegData.utilityOil
  | .geothermal => winnipegData.utilityGeothermal

/-- `calculateCMHCInsurance`, translated line by line from the source. -/
def calculateCMHCInsurance (propertyValue downPayment : ℚ) : ℚ :=
  let downPaymentPercent := downPayment / propertyValue * 100
  if 20 ≤ downPaymentPercent then 0
  else
    let premiumRate : ℚ :=
      if 15 ≤ downPaymentPercent then 28/10
      else if 10 ≤ downPaymentPercent then 31/10
      else if 5 ≤ downPaymentPercent then 4
      else 45/10
    (propertyValue - downPayment) * premiumRate / 100

/-- The premium rate the source applies at a given down-payment percentage
(0 at and above 20%, then the tier table). -/
def rateOfPercent (p : ℚ) : ℚ :=
  if 20 ≤ p then 0
  else if 15 ≤ p then 28/10
  else if 10 ≤ p then 31/10
  else if 5 ≤ p then 4
  else 45/10

/-- The four-valued affordability enum of `MortgageResultSchema`. -/
inductive AffordabilityRating where
  | excellent
  | good
  | fair
  | poor
deriving DecidableEq, Repr

/-- `getAffordabilityRating`, translated from the source. -/
def getAffordabilityRating (totalMonthlyCost assumedIncome : ℚ) : AffordabilityRating :=
  let ratio := totalMonthlyCost / assumedIncome * 100
  if ratio ≤ 28 then .excellent
  else if ratio ≤ 32 then .good
  else if ratio ≤ 39 then .fair
  else .poor

/-- The `MortgageResult` record of the source. -/
structure MortgageResult where
  monthlyPayment : ℚ
  principalAmount : ℚ
  totalInterest : ℚ
  monthlyPropertyTax : ℚ
  monthlyInsurance : ℚ
  monthlyUtilities : ℚ
  totalMonthlyCost : ℚ
  downPaymentPercent : ℚ
  cmhcInsurance : ℚ
  affordabilityRating : AffordabilityRating
  warnings : List String
deriving DecidableEq, Repr

namespace Calc

/-- `principalAmount` binding of `calculateMortgage`. -/
def principalAmount (d : MortgageCalculation) : ℚ :=
  d.propertyValue - d.downPayment

/-- `cmhcInsurance` binding of `calculateMortgage`. -/
def cmhcInsurance (d : MortgageCalculation) : ℚ :=
  calculateCMHCInsurance d.propertyValue d.downPayment

/-- `totalLoanAmount` binding of `calculateMortgage`. -/
def totalLoanAmount (d : MortgageCalculation) : ℚ :=
  principalAmount d + cmhcInsurance d

/-- `monthlyRate` binding of `calculateMortgage`. -/
def monthlyRate (d : MortgageCalculation) : ℚ :=
  d.interestRate / 100 / 12

/-- `numPayments` binding of `calculateMortgage`. -/
def numPayments (d : MortgageCalculation) : ℕ :=
  d.amortizationYears * 12

/-- The unrounded `monthlyPayment` binding of `calculateMortgage`. -/
def monthlyPayment (d : MortgageCalculation) : ℚ :=
  totalLoanAmount d *
    (monthlyRate d * (1 + monthlyRate d) ^ numPayments d) /
    ((1 + monthlyRate d) ^ numPayments d - 1)

/-- The unrounded `totalInterest` binding of `calculateMortgage`. -/
def totalInterest (d : MortgageCalculation) : ℚ :=
  monthlyPayment d * (numPayments d : ℚ) - totalLoanAmount d

/-- `monthlyPropertyTax` binding of `calculateMortgage`. -/
def monthlyPropertyTax (d : MortgageCalculation) : ℚ :=
  d.propertyValue * winnipegData.averagePropertyTaxRate / 100 / 12

/-- `monthlyInsurance` binding of `calculateMortgage`. -/
def monthlyInsurance (d : MortgageCalculation) : ℚ :=
  d.propertyValue * winnipegData.averageInsuranceRate / 100 / 12

/-- `monthlyUtilities` binding of `calculateMortgage`. -/
def monthlyUtilities (d : MortgageCalculation) : ℚ :=
  utilityEstimate d.heatingType

/-- `totalMonthlyCost` binding of `calculateMortgage`. -/
def totalMonthlyCost (d : MortgageCalculation) : ℚ :=
  monthlyPayment d + monthlyPropertyTax d + monthlyInsurance d + monthlyUtilities d

/-- `downPaymentPercent` binding of `calculateMortgage`. -/
def downPaymentPercent (d : MortgageCalculation) : ℚ :=
  d.downPayment / d.propertyValue * 100

/-- The `warnings` array built by `calculateMortgage`, in push order. -/
def warnings (d : MortgageCalculation) : List String :=
  (if downPaymentPercent d < 20 then
    ["Down payment less than 20% requires CMHC insurance"] else []) ++
  (if downPaymentPercent d < 5 then
    ["Down payment less than 5% may not be accepted by all lenders"] else []) ++
  (if d.interestRate > winnipegData.fixed5Year + 1 then
    ["Interest rate appears higher than current market rates"] else [])

/-- `assumedMonthlyIncome` binding of `calculateMortgage`. -/
def assumedMonthlyIncome (d : MortgageCalculation) : ℚ :=
  totalMonthlyCost d / (32/100)

end Calc

/-- `calculateMortgage`, translated from the source; the let-bindings of the
original are the `Calc` definitions above, and every monetary output field
is rounded with `Math.round (x * 100) / 100` exactly as in the source. -/
def calculateMortgage (d : MortgageCalculation) : MortgageResult where
  monthlyPayment := round2 (Calc.monthlyPayment d)
  principalAmount := round2 (Calc.principalAmount d)
  totalInterest := round2 (Calc.totalInterest d)
  monthlyPropertyTax := round2 (Calc.monthlyPropertyTax d)
  monthlyInsurance := round2 (Calc.monthlyInsurance d)
  monthlyUtilities := round2 (Calc.monthlyUtilities d)
  totalMonthlyCost := round2 (Calc.totalMonthlyCost d)
  downPaymentPercent := round2 (Calc.downPaymentPercent d)
  cmhcInsurance := round2 (Calc.cmhcInsurance d)
  affordabilityRating := getAffordabilityRating (Calc.totalMonthlyCost d) (Calc.assumedMonthlyIncome d)
  warnings := Calc.warnings d

/-! ## Helper lemmas -/

lemma cmhc_eq_rate (pv dp : ℚ) :
    calculateCMHCInsurance pv dp = (pv - dp) * rateOfPercent (dp / pv * 100) / 100 := by
  simp only [calculateCMHCInsurance, rateOfPercent]
  by_cases h20 : 20 ≤ dp / pv * 100
  · rw [if_pos h20, if_pos h20, mul_zero, zero_div]
  · rw [if_neg h20, if_neg h20]

lemma rateOfPercent_nonneg (p : ℚ) : 0 ≤ rateOfPercent p := by
  unfold rateOfPercent
  split_ifs <;> norm_num

lemma rateOfPercent_antitone {p q : ℚ} (h : p ≤ q) : rateOfPercent q ≤ rateOfPercent p := by
  unfold rateOfPercent
  split_ifs <;> first | rfl | linarith

lemma cmhc_nonneg {pv dp : ℚ} (h : dp ≤ pv) : 0 ≤ calculateCMHCInsurance pv dp := by
  rw [cmhc_eq_rate]
  have h1 : 0 ≤ pv - dp := by linarith
  have h2 := rateOfPercent_nonneg (dp / pv * 100)
  positivity

lemma round2_nonneg {x : ℚ} (h : 0 ≤ x) : 0 ≤ round2 x := by
  unfold round2 jsRound
  have h1 : (0:ℤ) ≤ ⌊x * 100 + 1/2⌋ := by
    apply Int.floor_nonneg.2
    positivity
  positivity

lemma utilityEstimate_pos (h : HeatingType) : 0 < utilityEstimate h := by
  cases h <;> norm_num [utilityEstimate, winnipegData]

lemma rateOfPercent_pos {p : ℚ} (h : p < 20) : 0 < rateOfPercent p := by
  unfold rateOfPercent
  split_ifs <;> first | linarith | norm_num

/-! ## C4 -/

/-- C4: for `0 < propertyValue`, `0 ≤ downPayment ≤ propertyValue`, the CMHC
premium equals `(propertyValue - downPayment) * rate / 100` where `rate` is the
tier table value at `p = downPayment / propertyValue * 100` (0 for `p ≥ 20`,
2.8 for `15 ≤ p < 20`, 3.1 for `10 ≤ p < 15`, 4.0 for `5 ≤ p < 10`, 4.5 for
`p < 5`, boundaries inclusive on the lower bound), and the premium is exactly
0 whenever `p ≥ 20`. -/
theorem C4_premium_tiers (pv dp : ℚ) (hpv : 0 < pv) (hdp : 0 ≤ dp) (hle : dp ≤ pv) :
    calculateCMHCInsurance pv dp = (pv - dp) * rateOfPercent (dp / pv * 100) / 100 ∧
    (20 ≤ dp / pv * 100 → calculateCMHCInsurance pv dp = 0) := by
  refine ⟨cmhc_eq_rate pv dp, fun h => ?_⟩
  simp only [calculateCMHCInsurance]
  rw [if_pos h]

theorem C4_premium_tiers_witness :
    (0:ℚ) < 400000 ∧ (0:ℚ) ≤ 20000 ∧ (20000:ℚ) ≤ 400000 ∧
    (calculateCMHCInsurance 400000 20000 =
        (400000 - 20000) * rateOfPercent (20000 / 400000 * 100) / 100 ∧
      (20 ≤ (20000:ℚ) / 400000 * 100 → calculateCMHCInsurance 400000 20000 = 0)) :=
  ⟨by norm_num, by norm_num, by norm_num,
    C4_premium_tiers 400000 20000 (by norm_num) (by norm_num) (by norm_num)⟩

/-! ## C8 -/

/-- C8: for a fixed `propertyValue > 0` and down payments `d1 ≤ d2` in
`[0, propertyValue]`, the premium rate applied at `d2` is at most the rate
applied at `d1` (the rate is a monotonically non-increasing step function of
the down-payment percentage, and it is the rate the premium is computed
from), and the premium is exactly 0 at every down-payment percentage at or
above 20%. -/
theorem C8_rate_monotone (pv d1 d2 : ℚ) (hpv : 0 < pv) (h1 : 0 ≤ d1)
    (h12 : d1 ≤ d2) (h2 : d2 ≤ pv) :
    rateOfPercent (d2 / pv * 100) ≤ rateOfPercent (d1 / pv * 100) ∧
    calculateCMHCInsurance pv d1 = (pv - d1) * rateOfPercent (d1 / pv * 100) / 100 ∧
    calculateCMHCInsurance pv d2 = (pv - d2) * rateOfPercent (d2 / pv * 100) / 100 ∧
    (∀ dp : ℚ, 20 ≤ dp / pv * 100 → calculateCMHCInsurance pv dp = 0) := by
  refine ⟨?_, cmhc_eq_rate pv d1, cmhc_eq_rate pv d2, fun dp h => ?_⟩
  · apply rateOfPercent_antitone
    have hdiv : d1 / pv ≤ d2 / pv := by gcongr
    nlinarith
  · simp only [calculateCMHCInsurance]
    rw [if_pos h]

theorem C8_rate_monotone_witness :
    (0:ℚ) < 400000 ∧ (0:ℚ) ≤ 20000 ∧ (20000:ℚ) ≤ 60000 ∧ (60000:ℚ) ≤ 400000 ∧
    rateOfPercent ((60000:ℚ) / 400000 * 100) ≤ rateOfPercent ((20000:ℚ) / 400000 * 100) :=
  ⟨by norm_num, by norm_num, by norm_num, by norm_num,
    (C8_rate_monotone 400000 20000 60000 (by norm_num) (by norm_num) (by norm_num)
      (by norm_num)).1⟩

/-! ## C10 -/

/-- C10: for every input with `propertyValue > 0` and `downPayment ≥ 0` —
including `downPayment > propertyValue`, which the validator does not rule
out — the premium is 0 when the down-payment percentage is at least 20
(which covers every `downPayment > propertyValue`), positive when it is
below 20, and the `cmhcInsurance` field of the result is non-negative. -/
theorem C10_premium_nonneg (d : MortgageCalculation)
    (hpv : 0 < d.propertyValue) (hdp : 0 ≤ d.downPayment) :
    (20 ≤ d.downPayment / d.propertyValue * 100 →
      calculateCMHCInsurance d.propertyValue d.downPayment = 0) ∧
    (d.downPayment / d.propertyValue * 100 < 20 →
      0 < calculateCMHCInsurance d.propertyValue d.downPayment) ∧
    (d.propertyValue < d.downPayment → 20 ≤ d.downPayment / d.propertyValue * 100) ∧
    0 ≤ (calculateMortgage d).cmhcInsurance := by
  have ha : 20 ≤ d.downPayment / d.propertyValue * 100 →
      calculateCMHCInsurance d.propertyValue d.downPayment = 0 := by
    intro h
    simp only [calculateCMHCInsurance]
    rw [if_pos h]
  have hb : d.downPayment / d.propertyValue * 100 < 20 →
      0 < calculateCMHCInsurance d.propertyValue d.downPayment := by
    intro h
    have hlt : d.downPayment / d.propertyValue < 1/5 := by linarith
    have hsub : 0 < d.propertyValue - d.downPayment := by
      have := (div_lt_iff hpv).1 hlt
      nlinarith
    rw [cmhc_eq_rate]
    have hrate := rateOfPercent_pos h
    positivity
  have hc : d.propertyValue < d.downPayment → 20 ≤ d.downPayment / d.propertyValue * 100 := by
    intro h
    have : 1 < d.downPayment / d.propertyValue := (one_lt_div hpv).2 h
    nlinarith
  refine ⟨ha, hb, hc, ?_⟩
  show 0 ≤ round2 (Calc.cmhcInsurance d)
  apply round2_nonneg
  rcases le_or_lt 20 (d.downPayment / d.propertyValue * 100) with h | h
  · rw [Calc.cmhcInsurance, ha h]
  · exact le_of_lt (hb h)

def c10data : MortgageCalculation where
  propertyValue := 200000
  downPayment := 10000
  interestRate := 5
  amortizationYears := 20
  propertyType := .condo
  heatingType := .electric
  isFirstTimeBuyer := true

theorem C10_premium_nonneg_witness :
    (0:ℚ) < c10data.propertyValue ∧ (0:ℚ) ≤ c10data.downPayment ∧
    0 ≤ (calculateMortgage c10data).cmhcInsurance :=
  ⟨by norm_num [c10data], by norm_num [c10data],
    (C10_premium_nonneg c10data (by norm_num [c10data]) (by norm_num [c10data])).2.2.2⟩

/-! ## C1 -/

lemma int_years_cast {q : ℚ} (hden : q.den = 1) (hpos : 1 ≤ q) :
    ((q.num.toNat : ℕ) : ℚ) = q := by
  have hnum : (q.num : ℚ) = q := (Rat.den_eq_one_iff q).1 hden
  have hnn : (0:ℤ) ≤ q.num := Rat.num_nonneg.2 (by linarith)
  rw [← hnum]
  exact_mod_cast congrArg (fun z : ℤ => (z : ℚ)) (Int.toNat_of_nonneg hnn)

/-- A raw request with `downPayment > propertyValue` that the schema accepts. -/
def c1rawOver : RawRequest where
  propertyValue := 100
  downPayment := 200
  interestRate := 5
  amortizationYears := 25
  propertyType := "condo"
  heatingType := "gas"
  isFirstTimeBuyer := false

/-- A raw request with `0 < propertyValue < 1` that the schema rejects even
though every condition of the claim's failure list is false for it. -/
def c1rawSmall : RawRequest where
  propertyValue := 1/2
  downPayment := 0
  interestRate := 5
  amortizationYears := 25
  propertyType := "condo"
  heatingType := "gas"
  isFirstTimeBuyer := false

/-- C1 counterexample: validation succeeds on a request with
`downPayment > propertyValue` (the claim requires failure there), and it
fails on `propertyValue = 1/2` even though none of the claim's failure
conditions holds (`propertyValue ≤ 0` in particular is false). -/
theorem C1_counterexample :
    (parseRequest c1rawOver).isSome = true ∧
    c1rawOver.propertyValue < c1rawOver.downPayment ∧
    parseRequest c1rawSmall = none ∧
    0 < c1rawSmall.propertyValue ∧ 0 ≤ c1rawSmall.downPayment ∧
    c1rawSmall.downPayment ≤ c1rawSmall.propertyValue ∧
    1/10 ≤ c1rawSmall.interestRate ∧ c1rawSmall.interestRate ≤ 20 ∧
    c1rawSmall.amortizationYears = 25 ∧
    parsePropertyType c1rawSmall.propertyType = some PropertyType.condo ∧
    parseHeatingType c1rawSmall.heatingType = some HeatingType.gas := by
  refine ⟨?_, by norm_num [c1rawOver], ?_, by norm_num [c1rawSmall], by norm_num [c1rawSmall],
    by norm_num [c1rawSmall], by norm_num [c1rawSmall], by norm_num [c1rawSmall],
    by norm_num [c1rawSmall], by decide, by decide⟩
  · have hc : 1 ≤ c1rawOver.propertyValue ∧ 0 ≤ c1rawOver.downPayment ∧
        1/10 ≤ c1rawOver.interestRate ∧ c1rawOver.interestRate ≤ 20 ∧
        c1rawOver.amortizationYears.den = 1 ∧ 1 ≤ c1rawOver.amortizationYears ∧
        c1rawOver.amortizationYears ≤ 35 := by
      refine ⟨?_, ?_, ?_, ?_, ?_, ?_, ?_⟩ <;> norm_num [c1rawOver]
    unfold parseRequest
    rw [if_pos hc]
    rfl
  · unfold parseRequest
    rw [if_neg (fun h => by norm_num [c1rawSmall] at h)]

/-- C1 (amended): validation succeeds exactly when `propertyValue ≥ 1`,
`downPayment ≥ 0`, `interestRate ∈ [0.1, 20]`, `amortizationYears` is an
integer in `[1, 35]`, and both enum strings parse — there is no
`downPayment ≤ propertyValue` check — and on success the validated
`CalculationRequest` carries exactly the request's field values. -/
theorem C1_validation_iff (r : RawRequest) :
    ((parseRequest r).isSome = true ↔
      (1 ≤ r.propertyValue ∧ 0 ≤ r.downPayment ∧
       1/10 ≤ r.interestRate ∧ r.interestRate ≤ 20 ∧
       r.amortizationYears.den = 1 ∧ 1 ≤ r.amortizationYears ∧ r.amortizationYears ≤ 35 ∧
       (parsePropertyType r.propertyType).isSome = true ∧
       (parseHeatingType r.heatingType).isSome = true)) ∧
    (∀ d : MortgageCalculation, parseRequest r = some d →
      d.propertyValue = r.propertyValue ∧ d.downPayment = r.downPayment ∧
      d.interestRate = r.interestRate ∧
      (d.amortizationYears : ℚ) = r.amortizationYears ∧
      some d.propertyType = parsePropertyType r.propertyType ∧
      some d.heatingType = parseHeatingType r.heatingType ∧
      d.isFirstTimeBuyer = r.isFirstTimeBuyer) := by
  unfold parseRequest
  by_cases hcond : (1 ≤ r.propertyValue ∧ 0 ≤ r.downPayment ∧
      1/10 ≤ r.interestRate ∧ r.interestRate ≤ 20 ∧
      r.amortizationYears.den = 1 ∧ 1 ≤ r.amortizationYears ∧ r.amortizationYears ≤ 35)
  · rw [if_pos hcond]
    obtain ⟨h1, h2, h3, h4, h5, h6, h7⟩ := hcond
    cases hpt : parsePropertyType r.propertyType with
    | none =>
        cases hht : parseHeatingType r.heatingType with
        | none => simp [h1, h2, h3, h4, h5, h6, h7, hpt, hht]
        | some ht => simp [h1, h2, h3, h4, h5, h6, h7, hpt, hht]
    | some pt =>
        cases hht : parseHeatingType r.heatingType with
        | none => simp [h1, h2, h3, h4, h5, h6, h7, hpt, hht]
        | some ht =>
            constructor
            · exact iff_of_true rfl
                ⟨h1, h2, h3, h4, h5, h6, h7, rfl, rfl⟩
            · intro d hd
              simp only [Option.some.injEq] at hd
              subst hd
              exact ⟨rfl, rfl, rfl, int_years_cast h5 h6, rfl, rfl, rfl⟩
  · rw [if_neg hcond]
    constructor
    · simp only [Option.isSome_none, Bool.false_eq_true, false_iff]
      intro hall
      exact hcond ⟨hall.1, hall.2.1, hall.2.2.1, hall.2.2.2.1, hall.2.2.2.2.1,
        hall.2.2.2.2.2.1, hall.2.2.2.2.2.2.1⟩
    · intro d hd
      exact absurd hd (by simp)

/-- A raw request satisfying every schema constraint. -/
def c1rawOk : RawRequest where
  propertyValue := 300000
  downPayment := 60000
  interestRate := 5
  amortizationYears := 30
  propertyType := "townhouse"
  heatingType := "electric"
  isFirstTimeBuyer := true

theorem C1_validation_iff_witness : (parseRequest c1rawOk).isSome = true :=
  (C1_validation_iff c1rawOk).1.mpr
    ⟨by norm_num [c1rawOk], by norm_num [c1rawOk], by norm_num [c1rawOk],
     by norm_num [c1rawOk], by norm_num [c1rawOk], by norm_num [c1rawOk],
     by norm_num [c1rawOk], by decide, by decide⟩

/-! ## C7 -/

/-- The same over-payment request as a raw value for C7. -/
def c7raw : RawRequest where
  propertyValue := 100
  downPayment := 200
  interestRate := 5
  amortizationYears := 25
  propertyType := "condo"
  heatingType := "gas"
  isFirstTimeBuyer := false

/-- The validated value the schema produces for `c7raw`. -/
def c7data : MortgageCalculation where
  propertyValue := 100
  downPayment := 200
  interestRate := 5
  amortizationYears := 25
  propertyType := .condo
  heatingType := .gas
  isFirstTimeBuyer := false

/-- C7 counterexample: the validator accepts `downPayment = 200` against
`propertyValue = 100`, and the resulting `principalAmount` is `-100 < 0`,
refuting `principalAmount ≥ 0` for every request accepted by the validator. -/
theorem C7_counterexample :
    parseRequest c7raw = some c7data ∧
    (calculateMortgage c7data).principalAmount = -100 ∧
    (calculateMortgage c7data).principalAmount < 0 := by
  refine ⟨?_, ?_, ?_⟩
  · have hc : 1 ≤ c7raw.propertyValue ∧ 0 ≤ c7raw.downPayment ∧
        1/10 ≤ c7raw.interestRate ∧ c7raw.interestRate ≤ 20 ∧
        c7raw.amortizationYears.den = 1 ∧ 1 ≤ c7raw.amortizationYears ∧
        c7raw.amortizationYears ≤ 35 := by
      refine ⟨?_, ?_, ?_, ?_, ?_, ?_, ?_⟩ <;> norm_num [c7raw]
    unfold parseRequest
    rw [if_pos hc]
    rfl
  · show round2 (Calc.principalAmount c7data) = -100
    norm_num [Calc.principalAmount, c7data, round2, jsRound]
  · show round2 (Calc.principalAmount c7data) < 0
    norm_num [Calc.principalAmount, c7data, round2, jsRound]

/-- C7 (amended): for every request accepted by the validator that also
satisfies `downPayment ≤ propertyValue` (a constraint the validator itself
does not enforce), the internal `principalAmount = propertyValue -
downPayment` is non-negative, the internal `totalLoanAmount` is
`principalAmount` plus the insurance premium, and the reported
`principalAmount` and `downPaymentPercent` are the two-decimal roundings of
`propertyValue - downPayment` and `downPayment / propertyValue * 100`. -/
theorem C7_invariants (d : MortgageCalculation) (hpv : 1 ≤ d.propertyValue)
    (hdp : 0 ≤ d.downPayment) (hle : d.downPayment ≤ d.propertyValue) :
    Calc.principalAmount d = d.propertyValue - d.downPayment ∧
    0 ≤ Calc.principalAmount d ∧
    Calc.totalLoanAmount d =
      Calc.principalAmount d + calculateCMHCInsurance d.propertyValue d.downPayment ∧
    (calculateMortgage d).principalAmount = round2 (d.propertyValue - d.downPayment) ∧
    (calculateMortgage d).downPaymentPercent =
      round2 (d.downPayment / d.propertyValue * 100) := by
  refine ⟨rfl, ?_, rfl, rfl, rfl⟩
  simp only [Calc.principalAmount]
  linarith

def c7okdata : MortgageCalculation where
  propertyValue := 250000
  downPayment := 25000
  interestRate := 6
  amortizationYears := 20
  propertyType := .multiFamily
  heatingType := .oil
  isFirstTimeBuyer := false

theorem C7_invariants_witness :
    (1:ℚ) ≤ c7okdata.propertyValue ∧ (0:ℚ) ≤ c7okdata.downPayment ∧
    c7okdata.downPayment ≤ c7okdata.propertyValue ∧
    0 ≤ Calc.principalAmount c7okdata :=
  ⟨by norm_num [c7okdata], by norm_num [c7okdata], by norm_num [c7okdata],
    (C7_invariants c7okdata (by norm_num [c7okdata]) (by norm_num [c7okdata])
      (by norm_num [c7okdata])).2.1⟩

/-! ## C2 -/

/-- The fixed-payment annuity formula exactly as the specification words it:
`monthlyPayment = totalLoanAmount * (r * (1+r)^n) / ((1+r)^n - 1)`. -/
def specMonthlyPayment (totalLoanAmount r : ℚ) (n : ℕ) : ℚ :=
  totalLoanAmount * (r * (1 + r) ^ n) / ((1 + r) ^ n - 1)

/-- C2: for every validated request (the interest rate is then positive), the
reported `monthlyPayment` is the two-decimal rounding of the annuity formula
applied to `totalLoanAmount = (propertyValue - downPayment) + insurance
premium` with `r = interestRate / 100 / 12` and `n = amortizationYears * 12`,
the reported `totalInterest` is the rounding of `monthlyPayment * n -
totalLoanAmount` computed from the unrounded payment, and the formula's
denominator is non-zero. -/
theorem C2_annuity_formula (d : MortgageCalculation) (hpv : 1 ≤ d.propertyValue)
    (hdp : 0 ≤ d.downPayment) (hr1 : 1/10 ≤ d.interestRate) (hr2 : d.interestRate ≤ 20)
    (hy1 : 1 ≤ d.amortizationYears) (hy2 : d.amortizationYears ≤ 35) :
    (calculateMortgage d).monthlyPayment =
      round2 (specMonthlyPayment
        ((d.propertyValue - d.downPayment) +
          calculateCMHCInsurance d.propertyValue d.downPayment)
        (d.interestRate / 100 / 12) (d.amortizationYears * 12)) ∧
    (calculateMortgage d).totalInterest =
      round2 (specMonthlyPayment
          ((d.propertyValue - d.downPayment) +
            calculateCMHCInsurance d.propertyValue d.downPayment)
          (d.interestRate / 100 / 12) (d.amortizationYears * 12) *
          ((d.amortizationYears * 12 : ℕ) : ℚ) -
        ((d.propertyValue - d.downPayment) +
          calculateCMHCInsurance d.propertyValue d.downPayment)) ∧
    (1 + d.interestRate / 100 / 12) ^ (d.amortizationYears * 12) - 1 ≠ 0 := by
  refine ⟨rfl, rfl, ?_⟩
  have hr0 : 0 < d.interestRate / 100 / 12 := by linarith
  have hpow : 1 < (1 + d.interestRate / 100 / 12) ^ (d.amortizationYears * 12) := by
    apply one_lt_pow₀ (by linarith)
    have : 1 * 12 ≤ d.amortizationYears * 12 := Nat.mul_le_mul_right 12 hy1
    omega
  exact ne_of_gt (by linarith)

def c2data : MortgageCalculation where
  propertyValue := 100000
  downPayment := 20000
  interestRate := 12
  amortizationYears := 1
  propertyType := .singleFamily
  heatingType := .geothermal
  isFirstTimeBuyer := false

theorem C2_annuity_formula_witness :
    (1:ℚ) ≤ c2data.propertyValue ∧ (0:ℚ) ≤ c2data.downPayment ∧
    (1:ℚ)/10 ≤ c2data.interestRate ∧ c2data.interestRate ≤ 20 ∧
    1 ≤ c2data.amortizationYears ∧ c2data.amortizationYears ≤ 35 ∧
    (1 + c2data.interestRate / 100 / 12) ^ (c2data.amortizationYears * 12) - 1 ≠ 0 :=
  ⟨by norm_num [c2data], by norm_num [c2data], by norm_num [c2data], by norm_num [c2data],
    by norm_num [c2data], by norm_num [c2data],
    (C2_annuity_formula c2data (by norm_num [c2data]) (by norm_num [c2data])
      (by norm_num [c2data]) (by norm_num [c2data]) (by norm_num [c2data])
      (by norm_num [c2data])).2.2⟩

/-! ## C5 -/

lemma totalMonthlyCost_pos (d : MortgageCalculation) (hpv : 1 ≤ d.propertyValue)
    (hdp : 0 ≤ d.downPayment) (hle : d.downPayment ≤ d.propertyValue)
    (hr : 1/10 ≤ d.interestRate) (hy : 1 ≤ d.amortizationYears) :
    0 < Calc.totalMonthlyCost d := by
  have hL : 0 ≤ Calc.totalLoanAmount d := by
    have hc := cmhc_nonneg hle
    simp only [Calc.totalLoanAmount, Calc.principalAmount, Calc.cmhcInsurance]
    linarith
  have hrate : 0 < Calc.monthlyRate d := by
    simp only [Calc.monthlyRate]
    linarith
  have hpow : 1 < (1 + Calc.monthlyRate d) ^ Calc.numPayments d := by
    apply one_lt_pow₀ (by linarith)
    simp only [Calc.numPayments]
    omega
  have hpay : 0 ≤ Calc.monthlyPayment d := by
    simp only [Calc.monthlyPayment]
    apply div_nonneg
    · exact mul_nonneg hL (mul_nonneg (le_of_lt hrate) (by linarith))
    · linarith
  have hpv0 : 0 < d.propertyValue := by linarith
  have htax : 0 < Calc.monthlyPropertyTax d := by
    simp only [Calc.monthlyPropertyTax, winnipegData]
    positivity
  have hins : 0 ≤ Calc.monthlyInsurance d := by
    simp only [Calc.monthlyInsurance, winnipegData]
    positivity
  have hutil : 0 < Calc.monthlyUtilities d := utilityEstimate_pos d.heatingType
  simp only [Calc.totalMonthlyCost]
  linarith

lemma affordability_ratio_eq_32 {t : ℚ} (ht : t ≠ 0) : t / (t / (32/100)) * 100 = 32 := by
  field_simp
  ring

/-- The failing input for C5: in exact arithmetic the classifier ratio is
exactly 32 and the rating `good`, but under the source's IEEE-double
evaluation the ratio `totalMonthlyCost / (totalMonthlyCost / 0.32) * 100`
comes out one ulp above 32 (32.00000000000001, with
`totalMonthlyCost = 1498.5517289286367`) and the returned rating is `fair`. -/
def c5fail : MortgageCalculation where
  propertyValue := 200000
  downPayment := 50000
  interestRate := 5
  amortizationYears := 25
  propertyType := .singleFamily
  heatingType := .gas
  isFirstTimeBuyer := false

/-- C5: the back-derived income places the exact classifier ratio exactly ON
the `≤ 32` boundary of the `≤28 / ≤32 / ≤39 / else` mapping: at the input
`propertyValue = 200000, downPayment = 50000, interestRate = 5,
amortizationYears = 25, heatingType = gas` the exact ratio is 32 and the
exact-arithmetic rating is `good`, while a ratio only one ulp of 32
(`2 ^ (-47)`) above the boundary — which is what the source's
double-precision division chain produces at this very input — classifies as
`fair`, not `good`: the constant-`good` outcome is the documented intent and
the double-rounding boundary crossing is the defect. -/
theorem C5_float_boundary :
    Calc.totalMonthlyCost c5fail / Calc.assumedMonthlyIncome c5fail * 100 = 32 ∧
    (calculateMortgage c5fail).affordabilityRating = AffordabilityRating.good ∧
    getAffordabilityRating (32 + 1/2^47) 100 = AffordabilityRating.fair := by
  have htot : 0 < Calc.totalMonthlyCost c5fail :=
    totalMonthlyCost_pos c5fail (by norm_num [c5fail]) (by norm_num [c5fail])
      (by norm_num [c5fail]) (by norm_num [c5fail]) (by norm_num [c5fail])
  have ht0 : Calc.totalMonthlyCost c5fail ≠ 0 := ne_of_gt htot
  have hratio : Calc.totalMonthlyCost c5fail / Calc.assumedMonthlyIncome c5fail * 100 = 32 := by
    simp only [Calc.assumedMonthlyIncome]
    exact affordability_ratio_eq_32 ht0
  refine ⟨hratio, ?_, ?_⟩
  · show getAffordabilityRating (Calc.totalMonthlyCost c5fail)
      (Calc.assumedMonthlyIncome c5fail) = AffordabilityRating.good
    simp only [getAffordabilityRating]
    rw [hratio]
    norm_num
  · norm_num [getAffordabilityRating]

/-! ## C6 -/

/-- C6: for every validated request the warnings array is, in push order,
the `< 20%` CMHC warning iff `downPaymentPercent < 20`, then the `< 5%`
lender warning iff `downPaymentPercent < 5`, then the above-market warning
iff `interestRate > 4.84 + 1 = 5.84`; in particular it is empty when
`downPaymentPercent ≥ 20` and `interestRate ≤ 5.84`. -/
theorem C6_warnings_list (d : MortgageCalculation) (hpv : 1 ≤ d.propertyValue)
    (hdp : 0 ≤ d.downPayment) (hr1 : 1/10 ≤ d.interestRate) (hr2 : d.interestRate ≤ 20) :
    (calculateMortgage d).warnings =
      (if Calc.downPaymentPercent d < 20 then
        ["Down payment less than 20% requires CMHC insurance"] else []) ++
      (if Calc.downPaymentPercent d < 5 then
        ["Down payment less than 5% may not be accepted by all lenders"] else []) ++
      (if (584:ℚ)/100 < d.interestRate then
        ["Interest rate appears higher than current market rates"] else []) ∧
    (20 ≤ Calc.downPaymentPercent d ∧ d.interestRate ≤ 584/100 →
      (calculateMortgage d).warnings = []) := by
  have hbench : winnipegData.fixed5Year + 1 = 584/100 := by norm_num [winnipegData]
  constructor
  · show Calc.warnings d = _
    simp only [Calc.warnings, hbench]
  · rintro ⟨h20, hr584⟩
    show Calc.warnings d = []
    simp only [Calc.warnings]
    rw [if_neg (by linarith), if_neg (by linarith), if_neg (by rw [hbench]; exact not_lt.2 hr584)]
    rfl

def c6data : MortgageCalculation where
  propertyValue := 400000
  downPayment := 15000
  interestRate := 7
  amortizationYears := 25
  propertyType := .condo
  heatingType := .oil
  isFirstTimeBuyer := false

theorem C6_warnings_list_witness :
    (1:ℚ) ≤ c6data.propertyValue ∧ (0:ℚ) ≤ c6data.downPayment ∧
    (1:ℚ)/10 ≤ c6data.interestRate ∧ c6data.interestRate ≤ 20 ∧
    (calculateMortgage c6data).warnings =
      (if Calc.downPaymentPercent c6data < 20 then
        ["Down payment less than 20% requires CMHC insurance"] else []) ++
      (if Calc.downPaymentPercent c6data < 5 then
        ["Down payment less than 5% may not be accepted by all lenders"] else []) ++
      (if (584:ℚ)/100 < c6data.interestRate then
        ["Interest rate appears higher than current market rates"] else []) :=
  ⟨by norm_num [c6data], by norm_num [c6data], by norm_num [c6data], by norm_num [c6data],
    (C6_warnings_list c6data (by norm_num [c6data]) (by norm_num [c6data])
      (by norm_num [c6data]) (by norm_num [c6data])).1⟩

/-! ## C3 -/

/-- A computation input with `interestRate = 0` and every other field valid. -/
def c3data : MortgageCalculation where
  propertyValue := 100000
  downPayment := 20000
  interestRate := 0
  amortizationYears := 25
  propertyType := .condo
  heatingType := .gas
  isFirstTimeBuyer := false

/-- C3: at `interestRate = 0` the source has no special case: the annuity
denominator `(1+r)^n - 1` is exactly 0, so the source evaluates `0 / 0`
(`NaN` in JavaScript, 0 in this ℚ model) instead of the claimed
`monthlyPayment = totalLoanAmount / n = 266.67` and `totalInterest = 0`;
here `totalLoanAmount = 80000`, `n = 300`, and the model's result is
`monthlyPayment = 0` and `totalInterest = -80000`. -/
theorem C3_zero_rate_defect :
    (1 + Calc.monthlyRate c3data) ^ Calc.numPayments c3data - 1 = 0 ∧
    Calc.totalLoanAmount c3data = 80000 ∧
    Calc.numPayments c3data = 300 ∧
    round2 (Calc.totalLoanAmount c3data / (Calc.numPayments c3data : ℚ)) = 26667/100 ∧
    (calculateMortgage c3data).monthlyPayment = 0 ∧
    (calculateMortgage c3data).monthlyPayment ≠
      round2 (Calc.totalLoanAmount c3data / (Calc.numPayments c3data : ℚ)) ∧
    (calculateMortgage c3data).totalInterest = -80000 := by
  have hL : Calc.totalLoanAmount c3data = 80000 := by
    norm_num [Calc.totalLoanAmount, Calc.principalAmount, Calc.cmhcInsurance,
      calculateCMHCInsurance, c3data]
  have hn : Calc.numPayments c3data = 300 := by norm_num [Calc.numPayments, c3data]
  have hden : (1 + Calc.monthlyRate c3data) ^ Calc.numPayments c3data - 1 = 0 := by
    norm_num [Calc.monthlyRate, Calc.numPayments, c3data]
  have hpayraw : Calc.monthlyPayment c3data = 0 := by
    rw [Calc.monthlyPayment, hden]
    norm_num [Calc.monthlyRate, c3data]
  have hdiv : round2 (Calc.totalLoanAmount c3data / (Calc.numPayments c3data : ℚ)) =
      26667/100 := by
    rw [hL, hn]
    norm_num [round2, jsRound]
  have hpay : (calculateMortgage c3data).monthlyPayment = 0 := by
    show round2 (Calc.monthlyPayment c3data) = 0
    rw [hpayraw]
    norm_num [round2, jsRound]
  refine ⟨hden, hL, hn, hdiv, hpay, ?_, ?_⟩
  · rw [hpay, hdiv]
    norm_num
  · show round2 (Calc.totalInterest c3data) = -80000
    rw [Calc.totalInterest, hpayraw, hL, hn]
    norm_num [round2, jsRound]

/-! ## C9 -/

/-- The boundary scenario request of the spec's test list. -/
def c9data : MortgageCalculation where
  propertyValue := 400000
  downPayment := 80000
  interestRate := 484/100
  amortizationYears := 25
  propertyType := .singleFamily
  heatingType := .gas
  isFirstTimeBuyer := false

/-- C9 counterexample: the reported monthly payment for the boundary
scenario is 1840.98, not approximately 2148.65 — the difference is 307.67,
far beyond any rounding tolerance. -/
theorem C9_counterexample :
    (calculateMortgage c9data).monthlyPayment = 184098/100 ∧
    (214865:ℚ)/100 - (calculateMortgage c9data).monthlyPayment = 30767/100 := by
  have h : (calculateMortgage c9data).monthlyPayment = 184098/100 := by
    show round2 (Calc.monthlyPayment c9data) = 184098/100
    simp only [Calc.monthlyPayment, Calc.totalLoanAmount, Calc.principalAmount,
      Calc.cmhcInsurance, Calc.monthlyRate, Calc.numPayments, calculateCMHCInsurance,
      c9data, round2, jsRound, winnipegData]
    norm_num
  refine ⟨h, by rw [h]; norm_num⟩

/-- C9 (amended): for the boundary scenario (`propertyValue = 400000`,
`downPayment = 80000`, `interestRate = 4.84`, `amortizationYears = 25`,
`heatingType = gas`) the result has `downPaymentPercent = 20`,
`cmhcInsurance = 0`, `monthlyPayment = 1840.98` (the annuity formula on
principal 320000 over 300 payments at monthly rate 4.84/1200), and an
empty warnings array. -/
theorem C9_boundary_scenario :
    (calculateMortgage c9data).downPaymentPercent = 20 ∧
    (calculateMortgage c9data).cmhcInsurance = 0 ∧
    (calculateMortgage c9data).monthlyPayment = 184098/100 ∧
    (calculateMortgage c9data).warnings = [] := by
  refine ⟨?_, ?_, ?_, ?_⟩
  · show round2 (Calc.downPaymentPercent c9data) = 20
    norm_num [Calc.downPaymentPercent, c9data, round2, jsRound]
  · show round2 (Calc.cmhcInsurance c9data) = 0
    norm_num [Calc.cmhcInsurance, calculateCMHCInsurance, c9data, round2, jsRound]
  · show round2 (Calc.monthlyPayment c9data) = 184098/100
    simp only [Calc.monthlyPayment, Calc.totalLoanAmount, Calc.principalAmount,
      Calc.cmhcInsurance, Calc.monthlyRate, Calc.numPayments, calculateCMHCInsurance,
      c9data, round2, jsRound, winnipegData]
    norm_num
  · show Calc.warnings c9data = []
    rw [Calc.warnings]
    rw [if_neg (by norm_num [Calc.downPaymentPercent, c9data]),
      if_neg (by norm_num [Calc.downPaymentPercent, c9data]),
      if_neg (by norm_num [c9data, winnipegData])]
    rfl
